import Mathlib

/-!
Verification development for the LLPC pipeline-context translation layer
(`llpc/context/llpcPipelineContext.cpp`).  The definitions below are a shallow
embedding of the C++ source: the format-compatibility table and `mapVkFormat`,
the resource-node flattener (`setUserDataInPipeline` / `setUserDataNodesTable`),
the vertex-input and color-export assembly, the shader-hash selection and the
GPU target-name formatting.  32-bit machine integers are modelled as `Nat`
(none of the verified paths can overflow 32 bits on the inputs considered),
pointers into the flattened node buffer are modelled as `Int` indices so that
out-of-range cursor movement is observable, and fallible accesses are modelled
with `Option`.
-/

set_option maxRecDepth 4000

/-! ## Shader hash selection (`PipelineContext::getShaderHashCode`) -/

/-- A 128-bit shader hash, split in its two 64-bit halves as in the interface
struct `ShaderHash`. -/
structure ShaderHash where
  lower : Nat
  upper : Nat
deriving DecidableEq

/-- The part of `ShaderModuleData` that `getShaderHashCode` reads: the module
content digest (a MetroHash over the SPIR-V binary). -/
structure ShaderModuleData where
  hash : Nat
deriving DecidableEq

/-- Shallow embedding of `PipelineContext::getShaderHashCode` (the
`LLPC_CLIENT_INTERFACE_MAJOR_VERSION >= 36` branch).  `compact64` stands for
`MetroHash::compact64`, an external pure digest-compaction function; a null
`pModuleData` is `none`. -/
def getShaderHashCode (compact64 : Nat → Nat) (clientHash : ShaderHash)
    (moduleData : Option ShaderModuleData) : ShaderHash :=
  if clientHash.upper ≠ 0 ∧ clientHash.lower ≠ 0 then
    clientHash
  else
    match moduleData with
    | some m => { lower := compact64 m.hash, upper := 0 }
    | none => { lower := 0, upper := 0 }

/-! ## GPU target name (`PipelineContext::getGpuNameString`) -/

/-- Graphics IP version triple, as in PAL's `GfxIpVersion`. -/
structure GfxIpVersion where
  major : Nat
  minor : Nat
  stepping : Nat
deriving DecidableEq

/-- Shallow embedding of `PipelineContext::getGpuNameString`: "gfx" followed by
the decimal major and minor numbers, then either the decimal stepping or, for a
stepping at or above 0xFFFA, the single character `'A' + (stepping - 0xFFFA)`
(the C++ `char` conversion truncates modulo 256). -/
def getGpuNameString (gfxIp : GfxIpVersion) : String :=
  "gfx" ++ Nat.repr gfxIp.major ++ Nat.repr gfxIp.minor ++
    (if 0xFFFA ≤ gfxIp.stepping then
      String.mk [Char.ofNat ((gfxIp.stepping - 0xFFFA + 65) % 256)]
    else
      Nat.repr gfxIp.stepping)

/-! ## Format table (`PipelineContext::mapVkFormat`)

The LGC buffer data formats and numeric formats that appear in the table.
`BufDataFormatInvalid` is the first (zero) enumerator, as in
`lgc/Pipeline.h`. -/

inductive BufDataFormat where
  | BufDataFormatInvalid
  | BufDataFormat4_4
  | BufDataFormat4_4_4_4
  | BufDataFormat4_4_4_4_Bgra
  | BufDataFormat5_6_5
  | BufDataFormat5_6_5_Bgr
  | BufDataFormat5_6_5_1
  | BufDataFormat5_6_5_1_Bgra
  | BufDataFormat1_5_6_5
  | BufDataFormat8
  | BufDataFormat8_8
  | BufDataFormat8_8_8
  | BufDataFormat8_8_8_Bgr
  | BufDataFormat8_8_8_8
  | BufDataFormat8_8_8_8_Bgra
  | BufDataFormat2_10_10_10
  | BufDataFormat2_10_10_10_Bgra
  | BufDataFormat16
  | BufDataFormat16_16
  | BufDataFormat16_16_16_16
  | BufDataFormat32
  | BufDataFormat32_32
  | BufDataFormat32_32_32
  | BufDataFormat32_32_32_32
  | BufDataFormat64
  | BufDataFormat64_64
  | BufDataFormat64_64_64
  | BufDataFormat64_64_64_64
  | BufDataFormat10_11_11
  | BufDataFormat5_9_9_9
deriving DecidableEq

inductive BufNumFormat where
  | BufNumFormatUnorm
  | BufNumFormatSnorm
  | BufNumFormatUscaled
  | BufNumFormatSscaled
  | BufNumFormatUint
  | BufNumFormatSint
  | BufNumFormatSrgb
  | BufNumFormatFloat
deriving DecidableEq

/-- One row of `mapVkFormat`'s static `FormatTable` (the release layout, which
omits the redundant `format` field: the table is indexed directly by the
`VkFormat` code and asserted to agree with it). -/
structure FormatEntry where
  dfmt : BufDataFormat
  nfmt : BufNumFormat
  validVertexFormat : Bool
  validExportFormat : Bool
deriving DecidableEq

/-- `INVALID_FORMAT_ENTRY(format)`. -/
def invalidFormatEntry : FormatEntry :=
  ⟨.BufDataFormatInvalid, .BufNumFormatUnorm, false, false⟩

/-- `VERTEX_FORMAT_ENTRY(format, dfmt, nfmt)`. -/
def vertexFormatEntry (d : BufDataFormat) (n : BufNumFormat) : FormatEntry :=
  ⟨d, n, true, false⟩

/-- `COLOR_FORMAT_ENTRY(format, dfmt, nfmt)`. -/
def colorFormatEntry (d : BufDataFormat) (n : BufNumFormat) : FormatEntry :=
  ⟨d, n, false, true⟩

/-- `BOTH_FORMAT_ENTRY(format, dfmt, nfmt)`. -/
def bothFormatEntry (d : BufDataFormat) (n : BufNumFormat) : FormatEntry :=
  ⟨d, n, true, true⟩

/-- The static `FormatTable` of `PipelineContext::mapVkFormat`, transcribed row
for row.  Row index = `VkFormat` code (0 = `VK_FORMAT_UNDEFINED` up to
184 = `VK_FORMAT_ASTC_12x12_SRGB_BLOCK`). -/
def FormatTable : List FormatEntry := [
  invalidFormatEntry,                                                     -- 0 UNDEFINED
  colorFormatEntry .BufDataFormat4_4 .BufNumFormatUnorm,                  -- 1 R4G4_UNORM_PACK8
  colorFormatEntry .BufDataFormat4_4_4_4 .BufNumFormatUnorm,              -- 2 R4G4B4A4_UNORM_PACK16
  colorFormatEntry .BufDataFormat4_4_4_4_Bgra .BufNumFormatUnorm,         -- 3 B4G4R4A4_UNORM_PACK16
  colorFormatEntry .BufDataFormat5_6_5 .BufNumFormatUnorm,                -- 4 R5G6B5_UNORM_PACK16
  colorFormatEntry .BufDataFormat5_6_5_Bgr .BufNumFormatUnorm,            -- 5 B5G6R5_UNORM_PACK16
  colorFormatEntry .BufDataFormat5_6_5_1 .BufNumFormatUnorm,              -- 6 R5G5B5A1_UNORM_PACK16
  colorFormatEntry .BufDataFormat5_6_5_1_Bgra .BufNumFormatUnorm,         -- 7 B5G5R5A1_UNORM_PACK16
  colorFormatEntry .BufDataFormat1_5_6_5 .BufNumFormatUnorm,              -- 8 A1R5G5B5_UNORM_PACK16
  bothFormatEntry .BufDataFormat8 .BufNumFormatUnorm,                     -- 9 R8_UNORM
  bothFormatEntry .BufDataFormat8 .BufNumFormatSnorm,                     -- 10 R8_SNORM
  bothFormatEntry .BufDataFormat8 .BufNumFormatUscaled,                   -- 11 R8_USCALED
  bothFormatEntry .BufDataFormat8 .BufNumFormatSscaled,                   -- 12 R8_SSCALED
  bothFormatEntry .BufDataFormat8 .BufNumFormatUint,                      -- 13 R8_UINT
  bothFormatEntry .BufDataFormat8 .BufNumFormatSint,                      -- 14 R8_SINT
  colorFormatEntry .BufDataFormat8 .BufNumFormatSrgb,                     -- 15 R8_SRGB
  bothFormatEntry .BufDataFormat8_8 .BufNumFormatUnorm,                   -- 16 R8G8_UNORM
  bothFormatEntry .BufDataFormat8_8 .BufNumFormatSnorm,                   -- 17 R8G8_SNORM
  bothFormatEntry .BufDataFormat8_8 .BufNumFormatUscaled,                 -- 18 R8G8_USCALED
  bothFormatEntry .BufDataFormat8_8 .BufNumFormatSscaled,                 -- 19 R8G8_SSCALED
  bothFormatEntry .BufDataFormat8_8 .BufNumFormatUint,                    -- 20 R8G8_UINT
  bothFormatEntry .BufDataFormat8_8 .BufNumFormatSint,                    -- 21 R8G8_SINT
  colorFormatEntry .BufDataFormat8_8 .BufNumFormatSrgb,                   -- 22 R8G8_SRGB
  colorFormatEntry .BufDataFormat8_8_8 .BufNumFormatUnorm,                -- 23 R8G8B8_UNORM
  colorFormatEntry .BufDataFormat8_8_8 .BufNumFormatSnorm,                -- 24 R8G8B8_SNORM
  colorFormatEntry .BufDataFormat8_8_8 .BufNumFormatUscaled,              -- 25 R8G8B8_USCALED
  colorFormatEntry .BufDataFormat8_8_8 .BufNumFormatSscaled,              -- 26 R8G8B8_SSCALED
  colorFormatEntry .BufDataFormat8_8_8 .BufNumFormatUint,                 -- 27 R8G8B8_UINT
  colorFormatEntry .BufDataFormat8_8_8 .BufNumFormatSint,                 -- 28 R8G8B8_SINT
  colorFormatEntry .BufDataFormat8_8_8 .BufNumFormatSrgb,                 -- 29 R8G8B8_SRGB
  colorFormatEntry .BufDataFormat8_8_8_Bgr .BufNumFormatUnorm,            -- 30 B8G8R8_UNORM
  colorFormatEntry .BufDataFormat8_8_8_Bgr .BufNumFormatSnorm,            -- 31 B8G8R8_SNORM
  colorFormatEntry .BufDataFormat8_8_8_Bgr .BufNumFormatUscaled,          -- 32 B8G8R8_USCALED
  colorFormatEntry .BufDataFormat8_8_8_Bgr .BufNumFormatSscaled,          -- 33 B8G8R8_SSCALED
  colorFormatEntry .BufDataFormat8_8_8_Bgr .BufNumFormatUint,             -- 34 B8G8R8_UINT
  colorFormatEntry .BufDataFormat8_8_8_Bgr .BufNumFormatSint,             -- 35 B8G8R8_SINT
  colorFormatEntry .BufDataFormat8_8_8_Bgr .BufNumFormatSrgb,             -- 36 B8G8R8_SRGB
  bothFormatEntry .BufDataFormat8_8_8_8 .BufNumFormatUnorm,               -- 37 R8G8B8A8_UNORM
  bothFormatEntry .BufDataFormat8_8_8_8 .BufNumFormatSnorm,               -- 38 R8G8B8A8_SNORM
  bothFormatEntry .BufDataFormat8_8_8_8 .BufNumFormatUscaled,             -- 39 R8G8B8A8_USCALED
  bothFormatEntry .BufDataFormat8_8_8_8 .BufNumFormatSscaled,             -- 40 R8G8B8A8_SSCALED
  bothFormatEntry .BufDataFormat8_8_8_8 .BufNumFormatUint,                -- 41 R8G8B8A8_UINT
  bothFormatEntry .BufDataFormat8_8_8_8 .BufNumFormatSint,                -- 42 R8G8B8A8_SINT
  colorFormatEntry .BufDataFormat8_8_8_8 .BufNumFormatSrgb,               -- 43 R8G8B8A8_SRGB
  bothFormatEntry .BufDataFormat8_8_8_8_Bgra .BufNumFormatUnorm,          -- 44 B8G8R8A8_UNORM
  bothFormatEntry .BufDataFormat8_8_8_8_Bgra .BufNumFormatSnorm,          -- 45 B8G8R8A8_SNORM
  bothFormatEntry .BufDataFormat8_8_8_8_Bgra .BufNumFormatUscaled,        -- 46 B8G8R8A8_USCALED
  bothFormatEntry .BufDataFormat8_8_8_8_Bgra .BufNumFormatSscaled,        -- 47 B8G8R8A8_SSCALED
  bothFormatEntry .BufDataFormat8_8_8_8_Bgra .BufNumFormatUint,           -- 48 B8G8R8A8_UINT
  bothFormatEntry .BufDataFormat8_8_8_8_Bgra .BufNumFormatSint,           -- 49 B8G8R8A8_SINT
  colorFormatEntry .BufDataFormat8_8_8_8_Bgra .BufNumFormatSrgb,          -- 50 B8G8R8A8_SRGB
  bothFormatEntry .BufDataFormat8_8_8_8 .BufNumFormatUnorm,               -- 51 A8B8G8R8_UNORM_PACK32
  bothFormatEntry .BufDataFormat8_8_8_8 .BufNumFormatSnorm,               -- 52 A8B8G8R8_SNORM_PACK32
  bothFormatEntry .BufDataFormat8_8_8_8 .BufNumFormatUscaled,             -- 53 A8B8G8R8_USCALED_PACK32
  bothFormatEntry .BufDataFormat8_8_8_8 .BufNumFormatSscaled,             -- 54 A8B8G8R8_SSCALED_PACK32
  bothFormatEntry .BufDataFormat8_8_8_8 .BufNumFormatUint,                -- 55 A8B8G8R8_UINT_PACK32
  bothFormatEntry .BufDataFormat8_8_8_8 .BufNumFormatSint,                -- 56 A8B8G8R8_SINT_PACK32
  colorFormatEntry .BufDataFormat8_8_8_8 .BufNumFormatSrgb,               -- 57 A8B8G8R8_SRGB_PACK32
  bothFormatEntry .BufDataFormat2_10_10_10_Bgra .BufNumFormatUnorm,       -- 58 A2R10G10B10_UNORM_PACK32
  bothFormatEntry .BufDataFormat2_10_10_10_Bgra .BufNumFormatSnorm,       -- 59 A2R10G10B10_SNORM_PACK32
  bothFormatEntry .BufDataFormat2_10_10_10_Bgra .BufNumFormatUscaled,     -- 60 A2R10G10B10_USCALED_PACK32
  bothFormatEntry .BufDataFormat2_10_10_10_Bgra .BufNumFormatSscaled,     -- 61 A2R10G10B10_SSCALED_PACK32
  bothFormatEntry .BufDataFormat2_10_10_10_Bgra .BufNumFormatUint,        -- 62 A2R10G10B10_UINT_PACK32
  bothFormatEntry .BufDataFormat2_10_10_10_Bgra .BufNumFormatSint,        -- 63 A2R10G10B10_SINT_PACK32
  bothFormatEntry .BufDataFormat2_10_10_10 .BufNumFormatUnorm,            -- 64 A2B10G10R10_UNORM_PACK32
  vertexFormatEntry .BufDataFormat2_10_10_10 .BufNumFormatSnorm,          -- 65 A2B10G10R10_SNORM_PACK32
  bothFormatEntry .BufDataFormat2_10_10_10 .BufNumFormatUscaled,          -- 66 A2B10G10R10_USCALED_PACK32
  vertexFormatEntry .BufDataFormat2_10_10_10 .BufNumFormatSscaled,        -- 67 A2B10G10R10_SSCALED_PACK32
  bothFormatEntry .BufDataFormat2_10_10_10 .BufNumFormatUint,             -- 68 A2B10G10R10_UINT_PACK32
  vertexFormatEntry .BufDataFormat2_10_10_10 .BufNumFormatSint,           -- 69 A2B10G10R10_SINT_PACK32
  bothFormatEntry .BufDataFormat16 .BufNumFormatUnorm,                    -- 70 R16_UNORM
  bothFormatEntry .BufDataFormat16 .BufNumFormatSnorm,                    -- 71 R16_SNORM
  bothFormatEntry .BufDataFormat16 .BufNumFormatUscaled,                  -- 72 R16_USCALED
  bothFormatEntry .BufDataFormat16 .BufNumFormatSscaled,                  -- 73 R16_SSCALED
  bothFormatEntry .BufDataFormat16 .BufNumFormatUint,                     -- 74 R16_UINT
  bothFormatEntry .BufDataFormat16 .BufNumFormatSint,                     -- 75 R16_SINT
  bothFormatEntry .BufDataFormat16 .BufNumFormatFloat,                    -- 76 R16_SFLOAT
  bothFormatEntry .BufDataFormat16_16 .BufNumFormatUnorm,                 -- 77 R16G16_UNORM
  bothFormatEntry .BufDataFormat16_16 .BufNumFormatSnorm,                 -- 78 R16G16_SNORM
  bothFormatEntry .BufDataFormat16_16 .BufNumFormatUscaled,               -- 79 R16G16_USCALED
  bothFormatEntry .BufDataFormat16_16 .BufNumFormatSscaled,               -- 80 R16G16_SSCALED
  bothFormatEntry .BufDataFormat16_16 .BufNumFormatUint,                  -- 81 R16G16_UINT
  bothFormatEntry .BufDataFormat16_16 .BufNumFormatSint,                  -- 82 R16G16_SINT
  bothFormatEntry .BufDataFormat16_16 .BufNumFormatFloat,                 -- 83 R16G16_SFLOAT
  invalidFormatEntry,                                                     -- 84 R16G16B16_UNORM
  invalidFormatEntry,                                                     -- 85 R16G16B16_SNORM
  invalidFormatEntry,                                                     -- 86 R16G16B16_USCALED
  invalidFormatEntry,                                                     -- 87 R16G16B16_SSCALED
  invalidFormatEntry,                                                     -- 88 R16G16B16_UINT
  invalidFormatEntry,                                                     -- 89 R16G16B16_SINT
  invalidFormatEntry,                                                     -- 90 R16G16B16_SFLOAT
  bothFormatEntry .BufDataFormat16_16_16_16 .BufNumFormatUnorm,           -- 91 R16G16B16A16_UNORM
  bothFormatEntry .BufDataFormat16_16_16_16 .BufNumFormatSnorm,           -- 92 R16G16B16A16_SNORM
  bothFormatEntry .BufDataFormat16_16_16_16 .BufNumFormatUscaled,         -- 93 R16G16B16A16_USCALED
  bothFormatEntry .BufDataFormat16_16_16_16 .BufNumFormatSscaled,         -- 94 R16G16B16A16_SSCALED
  bothFormatEntry .BufDataFormat16_16_16_16 .BufNumFormatUint,            -- 95 R16G16B16A16_UINT
  bothFormatEntry .BufDataFormat16_16_16_16 .BufNumFormatSint,            -- 96 R16G16B16A16_SINT
  bothFormatEntry .BufDataFormat16_16_16_16 .BufNumFormatFloat,           -- 97 R16G16B16A16_SFLOAT
  bothFormatEntry .BufDataFormat32 .BufNumFormatUint,                     -- 98 R32_UINT
  bothFormatEntry .BufDataFormat32 .BufNumFormatSint,                     -- 99 R32_SINT
  bothFormatEntry .BufDataFormat32 .BufNumFormatFloat,                    -- 100 R32_SFLOAT
  bothFormatEntry .BufDataFormat32_32 .BufNumFormatUint,                  -- 101 R32G32_UINT
  bothFormatEntry .BufDataFormat32_32 .BufNumFormatSint,                  -- 102 R32G32_SINT
  bothFormatEntry .BufDataFormat32_32 .BufNumFormatFloat,                 -- 103 R32G32_SFLOAT
  bothFormatEntry .BufDataFormat32_32_32 .BufNumFormatUint,               -- 104 R32G32B32_UINT
  bothFormatEntry .BufDataFormat32_32_32 .BufNumFormatSint,               -- 105 R32G32B32_SINT
  bothFormatEntry .BufDataFormat32_32_32 .BufNumFormatFloat,              -- 106 R32G32B32_SFLOAT
  bothFormatEntry .BufDataFormat32_32_32_32 .BufNumFormatUint,            -- 107 R32G32B32A32_UINT
  bothFormatEntry .BufDataFormat32_32_32_32 .BufNumFormatSint,            -- 108 R32G32B32A32_SINT
  bothFormatEntry .BufDataFormat32_32_32_32 .BufNumFormatFloat,           -- 109 R32G32B32A32_SFLOAT
  vertexFormatEntry .BufDataFormat64 .BufNumFormatUint,                   -- 110 R64_UINT
  vertexFormatEntry .BufDataFormat64 .BufNumFormatSint,                   -- 111 R64_SINT
  vertexFormatEntry .BufDataFormat64 .BufNumFormatFloat,                  -- 112 R64_SFLOAT
  vertexFormatEntry .BufDataFormat64_64 .BufNumFormatUint,                -- 113 R64G64_UINT
  vertexFormatEntry .BufDataFormat64_64 .BufNumFormatSint,                -- 114 R64G64_SINT
  vertexFormatEntry .BufDataFormat64_64 .BufNumFormatFloat,               -- 115 R64G64_SFLOAT
  vertexFormatEntry .BufDataFormat64_64_64 .BufNumFormatUint,             -- 116 R64G64B64_UINT
  vertexFormatEntry .BufDataFormat64_64_64 .BufNumFormatSint,             -- 117 R64G64B64_SINT
  vertexFormatEntry .BufDataFormat64_64_64 .BufNumFormatFloat,            -- 118 R64G64B64_SFLOAT
  vertexFormatEntry .BufDataFormat64_64_64_64 .BufNumFormatUint,          -- 119 R64G64B64A64_UINT
  vertexFormatEntry .BufDataFormat64_64_64_64 .BufNumFormatSint,          -- 120 R64G64B64A64_SINT
  vertexFormatEntry .BufDataFormat64_64_64_64 .BufNumFormatFloat,         -- 121 R64G64B64A64_SFLOAT
  bothFormatEntry .BufDataFormat10_11_11 .BufNumFormatFloat,              -- 122 B10G11R11_UFLOAT_PACK32
  colorFormatEntry .BufDataFormat5_9_9_9 .BufNumFormatFloat,              -- 123 E5B9G9R9_UFLOAT_PACK32
  colorFormatEntry .BufDataFormat16 .BufNumFormatUnorm,                   -- 124 D16_UNORM
  invalidFormatEntry,                                                     -- 125 X8_D24_UNORM_PACK32
  colorFormatEntry .BufDataFormat32 .BufNumFormatFloat,                   -- 126 D32_SFLOAT
  colorFormatEntry .BufDataFormat8 .BufNumFormatUint,                     -- 127 S8_UINT
  colorFormatEntry .BufDataFormat16 .BufNumFormatFloat,                   -- 128 D16_UNORM_S8_UINT
  invalidFormatEntry,                                                     -- 129 D24_UNORM_S8_UINT
  colorFormatEntry .BufDataFormat32 .BufNumFormatFloat,                   -- 130 D32_SFLOAT_S8_UINT
  invalidFormatEntry,                                                     -- 131 BC1_RGB_UNORM_BLOCK
  invalidFormatEntry,                                                     -- 132 BC1_RGB_SRGB_BLOCK
  invalidFormatEntry,                                                     -- 133 BC1_RGBA_UNORM_BLOCK
  invalidFormatEntry,                                                     -- 134 BC1_RGBA_SRGB_BLOCK
  invalidFormatEntry,                                                     -- 135 BC2_UNORM_BLOCK
  invalidFormatEntry,                                                     -- 136 BC2_SRGB_BLOCK
  invalidFormatEntry,                                                     -- 137 BC3_UNORM_BLOCK
  invalidFormatEntry,                                                     -- 138 BC3_SRGB_BLOCK
  invalidFormatEntry,                                                     -- 139 BC4_UNORM_BLOCK
  invalidFormatEntry,                                                     -- 140 BC4_SNORM_BLOCK
  invalidFormatEntry,                                                     -- 141 BC5_UNORM_BLOCK
  invalidFormatEntry,                                                     -- 142 BC5_SNORM_BLOCK
  invalidFormatEntry,                                                     -- 143 BC6H_UFLOAT_BLOCK
  invalidFormatEntry,                                                     -- 144 BC6H_SFLOAT_BLOCK
  invalidFormatEntry,                                                     -- 145 BC7_UNORM_BLOCK
  invalidFormatEntry,                                                     -- 146 BC7_SRGB_BLOCK
  invalidFormatEntry,                                                     -- 147 ETC2_R8G8B8_UNORM_BLOCK
  invalidFormatEntry,                                                     -- 148 ETC2_R8G8B8_SRGB_BLOCK
  invalidFormatEntry,                                                     -- 149 ETC2_R8G8B8A1_UNORM_BLOCK
  invalidFormatEntry,                                                     -- 150 ETC2_R8G8B8A1_SRGB_BLOCK
  invalidFormatEntry,                                                     -- 151 ETC2_R8G8B8A8_UNORM_BLOCK
  invalidFormatEntry,                                                     -- 152 ETC2_R8G8B8A8_SRGB_BLOCK
  invalidFormatEntry,                                                     -- 153 EAC_R11_UNORM_BLOCK
  invalidFormatEntry,                                                     -- 154 EAC_R11_SNORM_BLOCK
  invalidFormatEntry,                                                     -- 155 EAC_R11G11_UNORM_BLOCK
  invalidFormatEntry,                                                     -- 156 EAC_R11G11_SNORM_BLOCK
  invalidFormatEntry,                                                     -- 157 ASTC_4x4_UNORM_BLOCK
  invalidFormatEntry,                                                     -- 158 ASTC_4x4_SRGB_BLOCK
  invalidFormatEntry,                                                     -- 159 ASTC_5x4_UNORM_BLOCK
  invalidFormatEntry,                                                     -- 160 ASTC_5x4_SRGB_BLOCK
  invalidFormatEntry,                                                     -- 161 ASTC_5x5_UNORM_BLOCK
  invalidFormatEntry,                                                     -- 162 ASTC_5x5_SRGB_BLOCK
  invalidFormatEntry,                                                     -- 163 ASTC_6x5_UNORM_BLOCK
  invalidFormatEntry,                                                     -- 164 ASTC_6x5_SRGB_BLOCK
  invalidFormatEntry,                                                     -- 165 ASTC_6x6_UNORM_BLOCK
  invalidFormatEntry,                                                     -- 166 ASTC_6x6_SRGB_BLOCK
  invalidFormatEntry,                                                     -- 167 ASTC_8x5_UNORM_BLOCK
  invalidFormatEntry,                                                     -- 168 ASTC_8x5_SRGB_BLOCK
  invalidFormatEntry,                                                     -- 169 ASTC_8x6_UNORM_BLOCK
  invalidFormatEntry,                                                     -- 170 ASTC_8x6_SRGB_BLOCK
  invalidFormatEntry,                                                     -- 171 ASTC_8x8_UNORM_BLOCK
  invalidFormatEntry,                                                     -- 172 ASTC_8x8_SRGB_BLOCK
  invalidFormatEntry,                                                     -- 173 ASTC_10x5_UNORM_BLOCK
  invalidFormatEntry,                                                     -- 174 ASTC_10x5_SRGB_BLOCK
  invalidFormatEntry,                                                     -- 175 ASTC_10x6_UNORM_BLOCK
  invalidFormatEntry,                                                     -- 176 ASTC_10x6_SRGB_BLOCK
  invalidFormatEntry,                                                     -- 177 ASTC_10x8_UNORM_BLOCK
  invalidFormatEntry,                                                     -- 178 ASTC_10x8_SRGB_BLOCK
  invalidFormatEntry,                                                     -- 179 ASTC_10x10_UNORM_BLOCK
  invalidFormatEntry,                                                     -- 180 ASTC_10x10_SRGB_BLOCK
  invalidFormatEntry,                                                     -- 181 ASTC_12x10_UNORM_BLOCK
  invalidFormatEntry,                                                     -- 182 ASTC_12x10_SRGB_BLOCK
  invalidFormatEntry,                                                     -- 183 ASTC_12x12_UNORM_BLOCK
  invalidFormatEntry]                                                     -- 184 ASTC_12x12_SRGB_BLOCK

/-- The sentinel pair that `mapVkFormat` initializes its result to:
`BufDataFormatInvalid` with `BufNumFormatUnorm`. -/
def invalidPair : BufDataFormat × BufNumFormat :=
  (.BufDataFormatInvalid, .BufNumFormatUnorm)

/-- Shallow embedding of `PipelineContext::mapVkFormat`: index the static table
by the format code and return the row's pair only when the row marks the
requested usage valid; otherwise (or out of range) the sentinel pair. -/
def mapVkFormat (format : Nat) (isColorExport : Bool) : BufDataFormat × BufNumFormat :=
  match FormatTable[format]? with
  | some entry =>
    if (isColorExport && entry.validExportFormat) || (!isColorExport && entry.validVertexFormat) then
      (entry.dfmt, entry.nfmt)
    else
      invalidPair
  | none => invalidPair

/-! ## Resource tree flattener
(`PipelineContext::setUserDataInPipeline` / `setUserDataNodesTable`) -/

/-- `Vkgc::ResourceMappingNodeType`: the kind of one client-supplied resource
mapping node. -/
inductive ResourceMappingNodeType where
  | DescriptorResource
  | DescriptorSampler
  | DescriptorYCbCrSampler
  | DescriptorCombinedTexture
  | DescriptorTexelBuffer
  | DescriptorFmask
  | DescriptorBuffer
  | DescriptorTableVaPtr
  | IndirectUserDataVaPtr
  | PushConst
  | DescriptorBufferCompact
  | StreamOutTableVaPtr
deriving DecidableEq

/-- `lgc::ResourceNodeType`: the generator-side node kind. -/
inductive ResourceNodeType where
  | DescriptorResource
  | DescriptorSampler
  | DescriptorYCbCrSampler
  | DescriptorCombinedTexture
  | DescriptorTexelBuffer
  | DescriptorFmask
  | DescriptorBuffer
  | DescriptorTableVaPtr
  | IndirectUserDataVaPtr
  | PushConst
  | DescriptorBufferCompact
  | StreamOutTableVaPtr
deriving DecidableEq

/-- The `static_cast<ResourceNodeType>(node.type)` of the scalar-descriptor
default branch: an enumerator-wise identity (checked by the source's
`static_assert`s).  `DescriptorYCbCrSampler` is never reached through the cast
in the source (it is special-cased before), but the constructor-wise mapping is
total. -/
def castResourceNodeType : ResourceMappingNodeType → ResourceNodeType
  | .DescriptorResource => .DescriptorResource
  | .DescriptorSampler => .DescriptorSampler
  | .DescriptorYCbCrSampler => .DescriptorYCbCrSampler
  | .DescriptorCombinedTexture => .DescriptorCombinedTexture
  | .DescriptorTexelBuffer => .DescriptorTexelBuffer
  | .DescriptorFmask => .DescriptorFmask
  | .DescriptorBuffer => .DescriptorBuffer
  | .DescriptorTableVaPtr => .DescriptorTableVaPtr
  | .IndirectUserDataVaPtr => .IndirectUserDataVaPtr
  | .PushConst => .PushConst
  | .DescriptorBufferCompact => .DescriptorBufferCompact
  | .StreamOutTableVaPtr => .StreamOutTableVaPtr

mutual
/-- `Vkgc::ResourceMappingNode`.  The union payload is flattened into separate
fields: `tableNodes` is the child sequence of a `DescriptorTableVaPtr` (the
source's `tablePtr.pNext` array of `tablePtr.nodeCount` nodes),
`indirectSizeInDwords` is `userDataPtr.sizeInDwords`, and `set`/`binding` are
`srdRange`. -/
inductive ResourceMappingNode : Type where
  | node (typ : ResourceMappingNodeType) (offsetInDwords sizeInDwords : Nat)
      (tableNodes : NodeList) (indirectSizeInDwords : Nat)
      (set binding : Nat) : ResourceMappingNode

/-- A sequence of `ResourceMappingNode`s (an `ArrayRef<ResourceMappingNode>`).
A dedicated mutual inductive keeps all recursion over the tree structural. -/
inductive NodeList : Type where
  | nil : NodeList
  | cons : ResourceMappingNode → NodeList → NodeList
end

/-- Length of a node sequence (`ArrayRef::size`). -/
def NodeList.length : NodeList → Nat
  | .nil => 0
  | .cons _ rest => 1 + NodeList.length rest

/-- `Vkgc::DescriptorRangeValue`: an immutable descriptor value keyed by
`(set, binding)`, carrying `arraySize` and the raw dword array `pValue`. -/
structure DescriptorRangeValue where
  set : Nat
  binding : Nat
  arraySize : Nat
  value : List Nat
deriving DecidableEq

/-- The `ImmutableNodesMap` lookup.  The source builds a `DenseMap` keyed by
`(set, binding)` with plain assignment, so a later entry with the same key
overwrites an earlier one: the fold keeps the last match. -/
def immutableLookup (descriptorRangeValues : List DescriptorRangeValue)
    (set binding : Nat) : Option DescriptorRangeValue :=
  descriptorRangeValues.foldl
    (fun acc v => if v.set = set ∧ v.binding = binding then some v else acc) none

/-- `lgc::ResourceNode`, the generator-facing resolved node.  The inner-table
view is modelled as `(start index into the flat buffer, node count)`; the start
is an `Int` so that a cursor moved below the buffer head stays observable.  The
immutable constant (`ConstantArray` of `<8 x i32>` `ConstantVector`s in the
source) is modelled as a list of 8-dword word lists.  Union fields not used by
a node kind are left at their zero defaults. -/
structure ResourceNode where
  typ : ResourceNodeType
  offsetInDwords : Nat
  sizeInDwords : Nat
  innerTable : Int × Nat
  indirectSizeInDwords : Nat
  set : Nat
  binding : Nat
  immutableValue : Option (List (List Nat))
deriving DecidableEq

/-- The scalar-descriptor (default) branch of `setUserDataNodesTable`'s switch:
translate the type (identity cast, with `DescriptorYCbCrSampler` explicitly
special-cased), copy `(set, binding)`, and on an immutable-map hit with nonzero
`arraySize` synthesize the constant: `arraySize` elements, each an 8-dword
vector whose first `samplerDescriptorSize` dwords (4, or 8 for YCbCr) come from
the raw array at that stride and whose remaining dwords are zero.  The source
reads `pValue` unchecked; well-formed input supplies
`arraySize * samplerDescriptorSize` dwords, and the model defaults a read past
the supplied words to 0. -/
def resolveScalarNode (descriptorRangeValues : List DescriptorRangeValue)
    (typ : ResourceMappingNodeType) (offsetInDwords sizeInDwords set binding : Nat) :
    ResourceNode :=
  let destTyp := match typ with
    | .DescriptorYCbCrSampler => ResourceNodeType.DescriptorYCbCrSampler
    | t => castResourceNodeType t
  let base : ResourceNode :=
    { typ := destTyp, offsetInDwords := offsetInDwords, sizeInDwords := sizeInDwords,
      innerTable := (0, 0), indirectSizeInDwords := 0, set := set, binding := binding,
      immutableValue := none }
  match immutableLookup descriptorRangeValues set binding with
  | none => base
  | some immutableNode =>
    if immutableNode.arraySize ≠ 0 then
      let samplerDescriptorSize : Nat := match typ with
        | .DescriptorYCbCrSampler => 8
        | _ => 4
      let values := (List.range immutableNode.arraySize).map (fun compIdx =>
        (List.range 8).map (fun i =>
          if i < samplerDescriptorSize then
            immutableNode.value.getD (compIdx * samplerDescriptorSize + i) 0
          else 0))
      { base with immutableValue := some values }
    else base

mutual
/-- One iteration of `setUserDataNodesTable`'s loop: translate `n` and write it
at buffer index `destIdx`, threading the backward cursor `destInner`.  A
`DescriptorTableVaPtr` first decrements the backward cursor by its child count,
records that carved region as its view, and recursively writes its children
there (the recursive call receives the decremented cursor as both its forward
base and its backward cursor, exactly as the source passes `destInnerTable`).
The result is the list of `(buffer index, node)` writes performed, in order,
and the final backward cursor. -/
def writeNode (descriptorRangeValues : List DescriptorRangeValue)
    (n : ResourceMappingNode) (destIdx : Int) (destInner : Int) :
    List (Int × ResourceNode) × Int :=
  match n with
  | .node typ offsetInDwords sizeInDwords tableNodes indirectSizeInDwords set binding =>
    match typ with
    | .DescriptorTableVaPtr =>
      let childCount := NodeList.length tableNodes
      let destInner1 := destInner - (childCount : Int)
      let destNode : ResourceNode :=
        { typ := .DescriptorTableVaPtr, offsetInDwords := offsetInDwords,
          sizeInDwords := sizeInDwords, innerTable := (destInner1, childCount),
          indirectSizeInDwords := 0, set := 0, binding := 0, immutableValue := none }
      let rest := writeNodes descriptorRangeValues tableNodes destInner1 destInner1
      ((destIdx, destNode) :: rest.1, rest.2)
    | .IndirectUserDataVaPtr =>
      ([(destIdx,
        { typ := .IndirectUserDataVaPtr, offsetInDwords := offsetInDwords,
          sizeInDwords := sizeInDwords, innerTable := (0, 0),
          indirectSizeInDwords := indirectSizeInDwords, set := 0, binding := 0,
          immutableValue := none })], destInner)
    | .StreamOutTableVaPtr =>
      ([(destIdx,
        { typ := .StreamOutTableVaPtr, offsetInDwords := offsetInDwords,
          sizeInDwords := sizeInDwords, innerTable := (0, 0),
          indirectSizeInDwords := indirectSizeInDwords, set := 0, binding := 0,
          immutableValue := none })], destInner)
    | t =>
      ([(destIdx,
        resolveScalarNode descriptorRangeValues t offsetInDwords sizeInDwords set binding)],
        destInner)

/-- `setUserDataNodesTable`: write the node sequence at consecutive indices
starting at `destTable`, threading the backward cursor through every node. -/
def writeNodes (descriptorRangeValues : List DescriptorRangeValue)
    (nodes : NodeList) (destTable : Int) (destInner : Int) :
    List (Int × ResourceNode) × Int :=
  match nodes with
  | .nil => ([], destInner)
  | .cons n rest =>
    let first := writeNode descriptorRangeValues n destTable destInner
    let others := writeNodes descriptorRangeValues rest (destTable + 1) first.2
    (first.1 ++ others.1, others.2)
end

/-- The loop body of `setUserDataInPipeline`'s counting pass: for each node of
the sequence, add the immediate child count if it is a
`DescriptorTableVaPtr`. -/
def sumRootTableChildren : NodeList → Nat
  | .nil => 0
  | .cons (.node typ _ _ tableNodes _ _ _) rest =>
    (match typ with
      | .DescriptorTableVaPtr => NodeList.length tableNodes
      | _ => 0) + sumRootTableChildren rest

/-- The allocation-size computation of `setUserDataInPipeline`: the number of
root nodes plus, for each root-level `DescriptorTableVaPtr`, its immediate
child count.  (Note: this loop does not recurse into nested tables.) -/
def countUserDataNodes (nodes : NodeList) : Nat :=
  NodeList.length nodes + sumRootTableChildren nodes

mutual
/-- The number of binding nodes in one tree, counted at every nesting depth
(the spec's pre-order count). -/
def nodeTreeCount : ResourceMappingNode → Nat
  | .node _ _ _ tableNodes _ _ _ => 1 + nodeForestCount tableNodes

/-- The number of binding nodes in a forest, counted at every nesting depth. -/
def nodeForestCount : NodeList → Nat
  | .nil => 0
  | .cons n rest => nodeTreeCount n + nodeForestCount rest
end

/-- The observable outcome of `setUserDataInPipeline`: the buffer size it
allocates, the sequence of `(buffer index, resolved node)` writes the
translation performs into that buffer, and the final position of the backward
cursor (the source asserts it equals the root node count,
`destInnerTable == destTable + nodes.size()`). -/
structure FlattenResult where
  nodeCount : Nat
  writes : List (Int × ResourceNode)
  finalInner : Int
deriving DecidableEq

/-- Shallow embedding of `PipelineContext::setUserDataInPipeline`: count the
nodes, allocate one buffer of that size, and run `setUserDataNodesTable` with
the forward cursor at the buffer head (index 0) and the backward cursor at the
buffer tail (index `nodeCount`). -/
def setUserDataInPipeline (nodes : NodeList)
    (descriptorRangeValues : List DescriptorRangeValue) : FlattenResult :=
  let nodeCount := countUserDataNodes nodes
  let result := writeNodes descriptorRangeValues nodes 0 (nodeCount : Int)
  { nodeCount := nodeCount, writes := result.1, finalInner := result.2 }

/-! ## Vertex input descriptions (`PipelineContext::setVertexInputDescriptions`) -/

/-- `VkVertexInputRate`: the two-valued Vulkan enum (the source's switch treats
any other value as unreachable). -/
inductive VkVertexInputRate where
  | vertexRate
  | instanceRate
deriving DecidableEq

/-- `lgc::VertexInputRateVertex`.  The concrete numeric values of the two lgc
rate constants live in the external `lgc/Pipeline.h` interface; only the fact
that the zero-initialized `inputRate` field equals `VertexInputRateVertex` (the
zero enumerator) matters here. -/
def VertexInputRateVertex : Nat := 0

/-- `lgc::VertexInputRateInstance`. -/
def VertexInputRateInstance : Nat := 1

/-- `VkVertexInputBindingDescription`. -/
structure VkVertexInputBindingDescription where
  binding : Nat
  stride : Nat
  inputRate : VkVertexInputRate
deriving DecidableEq

/-- `VkVertexInputAttributeDescription`. -/
structure VkVertexInputAttributeDescription where
  location : Nat
  binding : Nat
  format : Nat
  offset : Nat
deriving DecidableEq

/-- One element of `VkPipelineVertexInputDivisorStateCreateInfoEXT`'s divisor
array. -/
structure VkVertexInputBindingDivisorDescription where
  binding : Nat
  divisor : Nat
deriving DecidableEq

/-- `lgc::VertexInputDescription`: the record the assembler emits per vertex
attribute.  The same struct is used for the intermediate per-binding table,
where only `binding`, `stride` and `inputRate` are assigned and the remaining
fields keep their zero defaults. -/
structure VertexInputDescription where
  location : Nat
  binding : Nat
  offset : Nat
  stride : Nat
  dfmt : BufDataFormat
  nfmt : BufNumFormat
  inputRate : Nat
deriving DecidableEq

/-- The zero value a `SmallVector<VertexInputDescription>::resize` gives to new
elements (all fields value-initialized; the zero enumerators are
`BufDataFormatInvalid` and `BufNumFormatUnorm`). -/
def zeroVertexInputDescription : VertexInputDescription :=
  ⟨0, 0, 0, 0, .BufDataFormatInvalid, .BufNumFormatUnorm, 0⟩

/-- In-range list update (`l[i] = f l[i]`); identity when `i` is out of range
(used only where the source has already established the bound). -/
def updateAt {α : Type} (l : List α) (i : Nat) (f : α → α) : List α :=
  match l[i]? with
  | some x => l.set i (f x)
  | none => l

/-- The binding-gathering loop of `setVertexInputDescriptions`: for each
`VkVertexInputBindingDescription`, grow the table with zero-valued slots so
that index `binding` exists, then assign that slot's `binding`, `stride` and
translated `inputRate`. -/
def gatherBindings (bindingDescs : List VkVertexInputBindingDescription) :
    List VertexInputDescription :=
  bindingDescs.foldl
    (fun bindings b =>
      let idx := b.binding
      let bindings :=
        if bindings.length ≤ idx then
          bindings ++ List.replicate (idx + 1 - bindings.length) zeroVertexInputDescription
        else bindings
      updateAt bindings idx (fun old =>
        { old with
          binding := b.binding
          stride := b.stride
          inputRate := (match b.inputRate with
            | .vertexRate => VertexInputRateVertex
            | .instanceRate => VertexInputRateInstance) }))
    []

/-- The divisor loop of `setVertexInputDescriptions`.  The source guards each
write with `divisor->binding <= bindings.size()` and then stores to
`bindings[divisor->binding]`; an index that passes the guard but is not a valid
slot (the `== size` boundary) is an out-of-bounds store, modelled as `none`. -/
def applyDivisors (bindings : List VertexInputDescription)
    (divisors : List VkVertexInputBindingDivisorDescription) :
    Option (List VertexInputDescription) :=
  divisors.foldl
    (fun acc d => acc.bind (fun bs =>
      if d.binding ≤ bs.length then
        match bs[d.binding]? with
        | some old => some (bs.set d.binding { old with inputRate := d.divisor })
        | none => none
      else some bs))
    (some bindings)

/-- One iteration of the attribute loop of `setVertexInputDescriptions`:
skip the attribute when its binding index is out of the table's range, when the
slot's stored binding number differs from the attribute's binding index, or
when `mapVkFormat` under vertex-input rules yields the invalid sentinel;
otherwise emit the finalized record. -/
def attribRecord (bindings : List VertexInputDescription)
    (attrib : VkVertexInputAttributeDescription) : Option VertexInputDescription :=
  match bindings[attrib.binding]? with
  | none => none
  | some b =>
    if b.binding ≠ attrib.binding then none
    else
      if (mapVkFormat attrib.format false).1 ≠ .BufDataFormatInvalid then
        some ⟨attrib.location, attrib.binding, attrib.offset, b.stride,
          (mapVkFormat attrib.format false).1, (mapVkFormat attrib.format false).2,
          b.inputRate⟩
      else none

/-- Shallow embedding of `PipelineContext::setVertexInputDescriptions` (for a
non-null `pVertexInput`; an absent divisor extension structure is the empty
divisor list): gather the binding table, apply the divisors, then emit one
record per surviving attribute, in attribute order.  `none` records that the
divisor loop performed an out-of-bounds store. -/
def setVertexInputDescriptions (bindingDescs : List VkVertexInputBindingDescription)
    (divisors : List VkVertexInputBindingDivisorDescription)
    (attribs : List VkVertexInputAttributeDescription) :
    Option (List VertexInputDescription) :=
  (applyDivisors (gatherBindings bindingDescs) divisors).map
    (fun bs => attribs.filterMap (attribRecord bs))

/-! ## Color export state (`PipelineContext::setColorExportState`) -/

/-- One color target of `cbState`: its `VkFormat` code (0 =
`VK_FORMAT_UNDEFINED`) and blend flags. -/
structure ColorTargetState where
  format : Nat
  blendEnable : Bool
  blendSrcAlphaToColor : Bool
deriving DecidableEq

/-- `lgc::ColorExportFormat`. -/
structure ColorExportFormat where
  dfmt : BufDataFormat
  nfmt : BufNumFormat
  blendEnable : Bool
  blendSrcAlphaToColor : Bool
deriving DecidableEq

/-- `MaxColorTargets`: the fixed number of color target slots in the
interface. -/
def MaxColorTargets : Nat := 8

/-- The zero value a `SmallVector<ColorExportFormat>::resize` gives to new
elements. -/
def zeroColorExportFormat : ColorExportFormat :=
  ⟨.BufDataFormatInvalid, .BufNumFormatUnorm, false, false⟩

/-- Shallow embedding of the format-gathering loop of
`PipelineContext::setColorExportState`: for each slot index below
`MaxColorTargets` whose format is not `VK_FORMAT_UNDEFINED`, grow the output to
`index + 1` entries (new entries zero-valued) and fill entry `index` from
`mapVkFormat` under color-export rules together with the slot's blend flags.
Slots with the undefined format are left untouched.  `targets` lists the
`cbState.target` array; missing tail entries read as undefined. -/
def setColorExportState (targets : List ColorTargetState) : List ColorExportFormat :=
  (List.range MaxColorTargets).foldl
    (fun formats targetIndex =>
      let t := targets.getD targetIndex ⟨0, false, false⟩
      if t.format ≠ 0 then
        let formats :=
          formats ++ List.replicate (targetIndex + 1 - formats.length) zeroColorExportFormat
        updateAt formats targetIndex (fun _ =>
          ⟨(mapVkFormat t.format true).1, (mapVkFormat t.format true).2,
            t.blendEnable, t.blendSrcAlphaToColor⟩)
      else formats)
    []

/-! ## Concrete inputs used by the claim theorems -/

/-- A binding-node forest with depth-2 nesting: one root
`DescriptorTableVaPtr` whose single child is itself a `DescriptorTableVaPtr`
containing one `DescriptorBuffer`.  Three nodes in total. -/
def c1Forest : NodeList :=
  .cons (.node .DescriptorTableVaPtr 0 1
    (.cons (.node .DescriptorTableVaPtr 4 1
      (.cons (.node .DescriptorBuffer 0 4 .nil 0 0 0) .nil) 0 0 0) .nil) 0 0 0) .nil

/-- A binding-node forest with depth-3 nesting: a chain of three
`DescriptorTableVaPtr` nodes ending in one `DescriptorBuffer`.  Four nodes in
total. -/
def c7Forest : NodeList :=
  .cons (.node .DescriptorTableVaPtr 0 1
    (.cons (.node .DescriptorTableVaPtr 0 1
      (.cons (.node .DescriptorTableVaPtr 0 1
        (.cons (.node .DescriptorBuffer 0 4 .nil 0 0 0) .nil) 0 0 0) .nil) 0 0 0) .nil) 0 0 0) .nil

/-! ## Claim theorems -/

/-- C1: the claim states that for every binding-node forest the flattener's
buffer is allocated with exactly the all-depths node count.  The code's
counting loop only adds the immediate children of root-level table pointers,
so on `c1Forest` (three nodes, with a table nested inside a table) it
allocates a buffer of 2 while the translation writes 3 resolved nodes, and the
source's own consistency assertion
`destInnerTable == destTable + nodes.size()` fails (the final backward cursor
is 0, not the root count 1).  This theorem evaluates the embedded code at that
failing input. -/
theorem c1_flattener_allocation_undercount :
    countUserDataNodes c1Forest = 2 ∧
    nodeForestCount c1Forest = 3 ∧
    (setUserDataInPipeline c1Forest []).writes.length = 3 ∧
    (setUserDataInPipeline c1Forest []).finalInner ≠ (NodeList.length c1Forest : Int) := by
  decide

/-- C7: the claim states that every table-pointer node's child view lies
inside the single backing buffer and that distinct views do not overlap.  On
the depth-3 forest `c7Forest` the undersized allocation (2 slots for 4 nodes)
drives the backward cursor below the buffer head: the innermost table's view
starts at index -1 and its child is written at index -1, both outside the
buffer `[0, 2)`; the write trace also shows index 0 written twice.  This
theorem evaluates the embedded code at that failing input. -/
theorem c7_inner_table_view_escapes_buffer :
    (setUserDataInPipeline c7Forest []).nodeCount = 2 ∧
    ((setUserDataInPipeline c7Forest []).writes.map (fun w => (w.1, w.2.innerTable))) =
      [(0, (1, 1)), (1, (0, 1)), (0, (-1, 1)), (-1, (0, 0))] ∧
    (∃ w ∈ (setUserDataInPipeline c7Forest []).writes,
      w.2.typ = ResourceNodeType.DescriptorTableVaPtr ∧ w.2.innerTable.1 < 0) := by
  decide

/-- C2 counterexample: the claim states that a non-YCbCr scalar descriptor at
`(set, binding) = (2, 5)` with an immutable entry of `arraySize = 1` and raw
words `[10, 11, 12, 13]` gets a constant blob of exactly those 4 words.  The
code builds every element as an 8-dword vector (`Constant *compValues[8]`),
so the blob is `[10, 11, 12, 13, 0, 0, 0, 0]`, which differs from the claimed
4-word blob. -/
theorem c2_immutable_blob_counterexample :
    ((setUserDataInPipeline (.cons (.node .DescriptorSampler 0 4 .nil 0 2 5) .nil)
        [⟨2, 5, 1, [10, 11, 12, 13]⟩]).writes.map (fun w => w.2.immutableValue)) =
      [some [[10, 11, 12, 13, 0, 0, 0, 0]]] ∧
    (some [[10, 11, 12, 13, 0, 0, 0, 0]] : Option (List (List Nat))) ≠
      some [[10, 11, 12, 13]] := by
  decide

/-- C2 amended: every synthesized element is 8 dwords wide.  The raw word
array is read at a per-kind stride (4 dwords for an ordinary sampler, 8 for a
YCbCr sampler), `arraySize` elements are produced, and each element's dwords
beyond the stride are zero.  So a non-YCbCr entry with raw words
`[a, b, c, d]` yields `[a, b, c, d, 0, 0, 0, 0]` (not the bare 4 words), an
`arraySize = 2` non-YCbCr entry is read at stride 4, and a well-formed YCbCr
entry supplies 8 raw words per element, which are copied unpadded. -/
theorem c2_immutable_blob_eight_word_elements (a b c d e f g h : Nat) :
    ((setUserDataInPipeline (.cons (.node .DescriptorSampler 0 4 .nil 0 2 5) .nil)
        [⟨2, 5, 1, [a, b, c, d]⟩]).writes.map (fun w => w.2.immutableValue)) =
      [some [[a, b, c, d, 0, 0, 0, 0]]] ∧
    ((setUserDataInPipeline (.cons (.node .DescriptorSampler 0 4 .nil 0 2 5) .nil)
        [⟨2, 5, 2, [a, b, c, d, e, f, g, h]⟩]).writes.map (fun w => w.2.immutableValue)) =
      [some [[a, b, c, d, 0, 0, 0, 0], [e, f, g, h, 0, 0, 0, 0]]] ∧
    ((setUserDataInPipeline (.cons (.node .DescriptorYCbCrSampler 0 8 .nil 0 2 5) .nil)
        [⟨2, 5, 1, [a, b, c, d, e, f, g, h]⟩]).writes.map (fun w => w.2.immutableValue)) =
      [some [[a, b, c, d, e, f, g, h]]] :=
  ⟨rfl, rfl, rfl⟩

/-- C2 witness: the amended blob shape at the concrete raw words
`[20, 21, 22, 23]`. -/
theorem c2_immutable_blob_eight_word_witness :
    ((setUserDataInPipeline (.cons (.node .DescriptorSampler 0 4 .nil 0 2 5) .nil)
        [⟨2, 5, 1, [20, 21, 22, 23]⟩]).writes.map (fun w => w.2.immutableValue)) =
      [some [[20, 21, 22, 23, 0, 0, 0, 0]]] :=
  (c2_immutable_blob_eight_word_elements 20 21 22 23 0 0 0 0).1

/-- C4: the claim states that a divisor whose binding index is out of range —
including the index equal to the binding table's size — is silently ignored
and never writes past the table's end.  The code's guard is
`divisor->binding <= bindings.size()`, so on a table of size 1 a divisor with
binding 1 passes the guard and stores to `bindings[1]`, one element past the
end (modelled as `none`); only a divisor with binding 2 (strictly greater than
the size) is ignored.  This theorem evaluates the embedded code at that
failing input. -/
theorem c4_divisor_boundary_off_by_one :
    (gatherBindings [⟨0, 16, .vertexRate⟩]).length = 1 ∧
    applyDivisors (gatherBindings [⟨0, 16, .vertexRate⟩]) [⟨1, 7⟩] = none ∧
    applyDivisors (gatherBindings [⟨0, 16, .vertexRate⟩]) [⟨2, 7⟩] =
      some (gatherBindings [⟨0, 16, .vertexRate⟩]) := by
  decide

/-- C5 counterexample: the claim states that an attribute referencing a
binding index below the highest-seen binding but never explicitly assigned
produces no vertex-input record.  With one binding description for binding 1
(growing the table to two slots) and an attribute referencing binding 0 with
format 98 (`VK_FORMAT_R32_UINT`, vertex-valid), the zero-valued slot 0 carries
binding number 0, which matches the attribute's index, so a record IS emitted
(with the slot's zero stride) instead of being skipped. -/
theorem c5_unassigned_binding_zero_counterexample :
    setVertexInputDescriptions [⟨1, 16, .vertexRate⟩] [] [⟨0, 0, 98, 0⟩] =
      some [⟨0, 0, 0, 0, .BufDataFormat32, .BufNumFormatUint, 0⟩] ∧
    (some [⟨0, 0, 0, 0, .BufDataFormat32, .BufNumFormatUint, 0⟩] :
      Option (List VertexInputDescription)) ≠ some [] := by
  decide

/-- C5 amended: an attribute is skipped exactly when its binding index is out
of the table's range, or the slot's stored binding number differs from the
attribute's index, or the format table yields the invalid sentinel under
vertex-input rules.  Since unassigned slots are zero-valued, an attribute
referencing an unassigned slot with a nonzero index is skipped as the claim
says, but an attribute referencing binding 0 while slot 0 is unassigned
matches the zero-filled slot and is emitted.  The second conjunct shows the
claim-conforming nonzero case: binding 1 unassigned below highest-seen
binding 2 emits nothing. -/
theorem c5_attribute_skip_rule :
    (∀ (bindings : List VertexInputDescription) (attrib : VkVertexInputAttributeDescription),
      attribRecord bindings attrib = none ↔
        (bindings.length ≤ attrib.binding ∨
          (∃ b, bindings[attrib.binding]? = some b ∧
            (b.binding ≠ attrib.binding ∨
              (mapVkFormat attrib.format false).1 = BufDataFormat.BufDataFormatInvalid)))) ∧
    setVertexInputDescriptions [⟨2, 16, .vertexRate⟩] [] [⟨0, 1, 98, 0⟩] = some [] := by
  constructor
  · intro bindings attrib
    unfold attribRecord
    cases h : bindings[attrib.binding]? with
    | none =>
      have hlen : bindings.length ≤ attrib.binding := List.getElem?_eq_none_iff.mp h
      simp [hlen]
    | some b =>
      have hlt : attrib.binding < bindings.length := by
        by_contra hge
        rw [List.getElem?_eq_none_iff.mpr (Nat.le_of_not_lt hge)] at h
        cases h
      by_cases h1 : b.binding = attrib.binding
      · by_cases h2 : (mapVkFormat attrib.format false).1 = BufDataFormat.BufDataFormatInvalid
        · simp [h1, h2, Nat.not_le.mpr hlt]
        · simp [h1, h2, Nat.not_le.mpr hlt]
      · simp [h1, Nat.not_le.mpr hlt]
  · decide

/-- C5 witness: the skip rule applied at a concrete out-of-range attribute:
the empty binding table skips an attribute referencing binding 0. -/
theorem c5_attribute_skip_rule_witness :
    attribRecord [] ⟨0, 0, 98, 0⟩ = none ↔
      (([] : List VertexInputDescription).length ≤ 0 ∨
        (∃ b, ([] : List VertexInputDescription)[(0 : Nat)]? = some b ∧
          (b.binding ≠ 0 ∨
            (mapVkFormat 98 false).1 = BufDataFormat.BufDataFormatInvalid))) :=
  c5_attribute_skip_rule.1 [] ⟨0, 0, 98, 0⟩

/-- C6 counterexample: the claim states that a color target whose format is
defined but invalid for color export is silently omitted from the emitted
output.  With target 0 set to format 84 (`VK_FORMAT_R16G16B16_UNORM`, defined
but not export-valid), the code still resizes the output and emits an entry —
carrying the invalid sentinel data format and the slot's blend flags — rather
than omitting the slot. -/
theorem c6_invalid_color_format_counterexample :
    setColorExportState [⟨84, true, false⟩] =
      [⟨.BufDataFormatInvalid, .BufNumFormatUnorm, true, false⟩] ∧
    ([⟨.BufDataFormatInvalid, .BufNumFormatUnorm, true, false⟩] :
      List ColorExportFormat) ≠ [] := by
  decide

/-- C6 amended: a color target with a defined format is always emitted; when
the format table yields the invalid sentinel under color-export rules the
emitted entry records the sentinel data format (with the looked-up numeric
format and the slot's blend flags) instead of the slot being omitted.  Only
slots whose format is `VK_FORMAT_UNDEFINED` are left out. -/
theorem c6_invalid_color_format_emitted (f : Nat) (be bs : Bool)
    (hf : f ≠ 0) (hinv : (mapVkFormat f true).1 = BufDataFormat.BufDataFormatInvalid) :
    setColorExportState [⟨f, be, bs⟩] =
      [⟨BufDataFormat.BufDataFormatInvalid, (mapVkFormat f true).2, be, bs⟩] := by
  have h8 : List.range MaxColorTargets = [0, 1, 2, 3, 4, 5, 6, 7] := rfl
  unfold setColorExportState
  rw [h8]
  simp only [List.foldl_cons, List.foldl_nil, List.getD, List.getElem?_cons_zero,
    Option.getD_some]
  norm_num [hf, updateAt, hinv]

/-- C6 witness: the amended emission rule at the concrete defined-but-invalid
format 84. -/
theorem c6_invalid_color_format_emitted_witness :
    setColorExportState [⟨84, true, false⟩] =
      [⟨BufDataFormat.BufDataFormatInvalid, (mapVkFormat 84 true).2, true, false⟩] :=
  c6_invalid_color_format_emitted 84 true false (by decide) (by decide)

/-- Every row of the format table that is valid for at least one usage carries
a real data format, never the invalid sentinel.  (Checked by enumerating the
185 rows.) -/
theorem formatTableValidRowNotInvalid :
    ∀ e ∈ FormatTable, (e.validVertexFormat || e.validExportFormat) = true →
      e.dfmt ≠ BufDataFormat.BufDataFormatInvalid := by
  decide

/-- C3: `mapVkFormat` returns the invalid sentinel pair exactly when the
format code is outside the table's range or the row does not mark the
requested usage (color export when `isColorExport`, vertex input otherwise)
as legal; moreover every 3-component 16-bit format (codes 84-90,
`VK_FORMAT_R16G16B16_*`) yields the sentinel for both usages, and every
64-bit format (codes 110-121, `VK_FORMAT_R64*`) is valid for vertex input and
yields the sentinel for color export. -/
theorem c3_mapVkFormat_sentinel_iff :
    (∀ (format : Nat) (isColorExport : Bool),
      mapVkFormat format isColorExport = invalidPair ↔
        (FormatTable.length ≤ format ∨
          (∃ e, FormatTable[format]? = some e ∧
            ((isColorExport && e.validExportFormat) ||
              (!isColorExport && e.validVertexFormat)) = false))) ∧
    (∀ format, 84 ≤ format → format ≤ 90 →
      mapVkFormat format false = invalidPair ∧ mapVkFormat format true = invalidPair) ∧
    (∀ format, 110 ≤ format → format ≤ 121 →
      (mapVkFormat format false).1 ≠ BufDataFormat.BufDataFormatInvalid ∧
        mapVkFormat format true = invalidPair) := by
  refine ⟨?_, ?_, ?_⟩
  · intro format isColorExport
    unfold mapVkFormat
    cases h : FormatTable[format]? with
    | none =>
      have hlen : FormatTable.length ≤ format := List.getElem?_eq_none_iff.mp h
      simp [hlen]
    | some e =>
      have hlt : format < FormatTable.length := by
        by_contra hge
        rw [List.getElem?_eq_none_iff.mpr (Nat.le_of_not_lt hge)] at h
        cases h
      have hmem : e ∈ FormatTable := List.getElem?_mem h
      cases isColorExport with
      | false =>
        by_cases hv : e.validVertexFormat = true
        · have hne := formatTableValidRowNotInvalid e hmem (by simp [hv])
          simp [hv, Nat.not_le.mpr hlt, invalidPair, Prod.ext_iff, hne]
        · simp only [Bool.not_eq_true] at hv
          simp [hv, Nat.not_le.mpr hlt]
      | true =>
        by_cases hv : e.validExportFormat = true
        · have hne := formatTableValidRowNotInvalid e hmem (by simp [hv])
          simp [hv, Nat.not_le.mpr hlt, invalidPair, Prod.ext_iff, hne]
        · simp only [Bool.not_eq_true] at hv
          simp [hv, Nat.not_le.mpr hlt]
  · intro format h1 h2
    interval_cases format <;> exact ⟨by decide, by decide⟩
  · intro format h1 h2
    interval_cases format <;> exact ⟨by decide, by decide⟩

/-- C3 witness: the sentinel behaviour at concrete rows: code 84
(`VK_FORMAT_R16G16B16_UNORM`) yields the sentinel for both usages, and code
110 (`VK_FORMAT_R64_UINT`) is vertex-valid but yields the sentinel for color
export. -/
theorem c3_mapVkFormat_sentinel_witness :
    (mapVkFormat 84 false = invalidPair ∧ mapVkFormat 84 true = invalidPair) ∧
    ((mapVkFormat 110 false).1 ≠ BufDataFormat.BufDataFormatInvalid ∧
      mapVkFormat 110 true = invalidPair) :=
  ⟨c3_mapVkFormat_sentinel_iff.2.1 84 (by decide) (by decide),
    c3_mapVkFormat_sentinel_iff.2.2 110 (by decide) (by decide)⟩

/-- C8: per shader stage the hash is the client-supplied 128-bit hash when
both its halves are non-zero, and otherwise the 64-bit compaction of the
module's content digest placed in the lower half with the upper half zero.
Determinism and purity are inherent: the result is a function of exactly
these inputs. -/
theorem c8_shader_hash_preference (compact64 : Nat → Nat) (clientHash : ShaderHash)
    (m : ShaderModuleData) :
    (clientHash.upper ≠ 0 ∧ clientHash.lower ≠ 0 →
      getShaderHashCode compact64 clientHash (some m) = clientHash) ∧
    (¬(clientHash.upper ≠ 0 ∧ clientHash.lower ≠ 0) →
      getShaderHashCode compact64 clientHash (some m) =
        { lower := compact64 m.hash, upper := 0 }) := by
  refine ⟨fun h => ?_, fun h => ?_⟩
  · unfold getShaderHashCode
    rw [if_pos h]
  · unfold getShaderHashCode
    rw [if_neg h]

/-- C8 witness: the client hash `(lower 3, upper 4)` has two non-zero halves
and is returned unchanged. -/
theorem c8_shader_hash_preference_witness :
    getShaderHashCode (fun d => d + 1) ⟨3, 4⟩ (some ⟨9⟩) = ⟨3, 4⟩ :=
  (c8_shader_hash_preference (fun d => d + 1) ⟨3, 4⟩ ⟨9⟩).1 (by decide)

/-- C9: the target name is "gfx" followed by the decimal major and minor
numbers and then the stepping, rendered as the single letter at offset
`stepping - 0xFFFA` from 'A' when the stepping is at or above the reserved
threshold 0xFFFA and in decimal otherwise; in particular `(10, 1, 0)` gives
"gfx1010" and `(10, 1, 0xFFFA)` gives "gfx101A". -/
theorem c9_gpu_name_string_spec :
    (∀ gfxIp : GfxIpVersion,
      getGpuNameString gfxIp =
        "gfx" ++ Nat.repr gfxIp.major ++ Nat.repr gfxIp.minor ++
          (if 0xFFFA ≤ gfxIp.stepping then
            String.mk [Char.ofNat ((gfxIp.stepping - 0xFFFA + 65) % 256)]
          else Nat.repr gfxIp.stepping)) ∧
    getGpuNameString ⟨10, 1, 0⟩ = "gfx1010" ∧
    getGpuNameString ⟨10, 1, 0xFFFA⟩ = "gfx101A" :=
  ⟨fun _ => rfl, by decide, by decide⟩

/-- C9 witness: the formatting rule applied at the concrete triple
`(9, 0, 6)`. -/
theorem c9_gpu_name_string_witness :
    getGpuNameString ⟨9, 0, 6⟩ =
      "gfx" ++ Nat.repr 9 ++ Nat.repr 0 ++
        (if 0xFFFA ≤ 6 then String.mk [Char.ofNat ((6 - 0xFFFA + 65) % 256)]
        else Nat.repr 6) :=
  c9_gpu_name_string_spec.1 ⟨9, 0, 6⟩

/-- C10: when the client-supplied hash is unusable (at least one half zero)
and the stage's module data pointer is null, `getShaderHashCode` returns the
all-zero hash rather than failing. -/
theorem c10_null_module_zero_hash (compact64 : Nat → Nat) (clientHash : ShaderHash)
    (h : ¬(clientHash.upper ≠ 0 ∧ clientHash.lower ≠ 0)) :
    getShaderHashCode compact64 clientHash none = ⟨0, 0⟩ := by
  unfold getShaderHashCode
  rw [if_neg h]

/-- C10 witness: a client hash with a zero upper half and a null module yield
the all-zero hash. -/
theorem c10_null_module_zero_hash_witness :
    getShaderHashCode (fun d => d + 1) ⟨5, 0⟩ none = ⟨0, 0⟩ :=
  c10_null_module_zero_hash (fun d => d + 1) ⟨5, 0⟩ (by decide)
